import Mathlib

/-!
Verification development for the guides subsystem (ggplot/guides/guides.py).

The Python module defines a class `guides(dict)` holding per-aesthetic guide
overrides, with methods `__init__`, `__radd__`, `build`, `train`, `validate`,
`merge`, `create_geoms`, `draw` and `assemble`.  Below is a shallow embedding:
pure data structures for the objects involved, explicit state passing for the
in-place mutations the Python code performs, and `Except` for the fatal
configuration errors (`GgplotError`).

External collaborators (the guide type objects with their `train`, `merge`,
`create_geoms`, `_set_defaults`, `draw` methods, the registry, the box
packers, and the numpy argsort routine) are modelled as function parameters,
since their code is outside this module.
-/

/-- A guide box: a fully drawn out guide, an opaque drawable produced by the
draw step of a guide definition (matplotlib Offsetbox in the source).  Only
its identity matters to this module. -/
structure GuideBox where
  id : Nat
  deriving DecidableEq, Repr, Inhabited

/-- A guide title: either the waived sentinel (meaning not set by the user,
tested by `is_waive` in the source) or an actual string value. -/
inductive TitleV where
  | waive : TitleV
  | strv : String → TitleV
  deriving DecidableEq, Repr, Inhabited

/-- A guide definition (gdef): an instantiated guide as used while creating
the legend.  `available_aes = none` stands for the literal token "any";
`direction = none` stands for Python None (unset); `order` is the integer
placement key; `hash` is the structural merge-grouping key of the guide. -/
structure Guide where
  available_aes : Option (List String)
  title : TitleV
  direction : Option String
  order : Int
  hash : Nat
  deriving DecidableEq, Repr, Inhabited

/-- A guide specification as stored on a scale or in the guides mapping:
Python None, Python False, a string identifier, a guide object, or any other
object (neither a string nor a guide instance). -/
inductive GuideSpec where
  | pynone : GuideSpec
  | pyfalse : GuideSpec
  | str : String → GuideSpec
  | obj : Guide → GuideSpec
  | other : GuideSpec
  deriving DecidableEq, Repr, Inhabited

/-- A scale, as consumed by `guides.train`: an ordered non-empty list of
aesthetic names (first is primary), a default guide spec, and an optional
display name (`name = some ""` models a Python empty string, which is
falsy in the `if scale.name` test of the source). -/
structure Scale where
  aesthetics : List String
  guide : GuideSpec
  name : Option String
  deriving DecidableEq, Repr, Inhabited

/-- The legend-relevant entries of `plot.theme.params`.  `none` models a
Python None value (unset). -/
structure Params where
  legend_box : Option String
  legend_key_size : Option Nat
  legend_key_width : Option Nat
  legend_key_height : Option Nat
  legend_position : Option String
  legend_direction : Option String
  legend_box_just : Option String
  deriving DecidableEq, Repr, Inhabited

/-- The plot, as consumed by `guides.build` and `guides.train`: its scales,
its label lookup (`plot.labels[output]`, assumed present per the collaborator
contract), and its theme parameters. -/
structure Plot where
  scales : List Scale
  labels : String → String
  params : Params

/-- The fatal configuration errors raised by this module.
Modelled from the spec: the GgplotError class itself lives outside this
module; the spec gives the error texts, reproduced in `GgplotError.message`.
`unknownGuide` is the "Unknown guide: ..." error of `validate`;
`aesMismatch` is the "... cannot be used for ..." error of `train`;
`badOrder` and `badLegendBox` are the two errors of `assemble`. -/
inductive GgplotError where
  | unknownGuide : GgplotError
  | aesMismatch : GgplotError
  | badOrder : GgplotError
  | badLegendBox : GgplotError
  deriving DecidableEq, Repr

/-- Modelled from the spec: the error texts of the configuration errors
(the source passes the pieces to GgplotError, defined outside this module;
the spec quotes the joined messages). -/
def GgplotError.message : GgplotError → String
  | .unknownGuide => "Unknown guide"
  | .aesMismatch => "cannot be used for"
  | .badOrder => "\x27order\x27 for a guide should be between 0 and 99"
  | .badLegendBox => "\x27legend_box\x27 should be either \x27vertical\x27 or \x27horizontal\x27"

/-- The composite box returned by `assemble`: a packer application
(HPacker when `horizontal`, VPacker otherwise) to the sorted children with
the given alignment, padding and separation. -/
structure PackedBox where
  horizontal : Bool
  children : List GuideBox
  align : Option String
  pad : Nat
  sep : Nat
  deriving DecidableEq, Repr

/-- The external collaborators of the pipeline, passed as functions:
the guide-type registry (string key to an instantiated zero-argument
construction), the per-guide `train`, `merge`, `create_geoms`,
`_set_defaults` and `draw` methods, and the numpy argsort routine. -/
structure Collaborators where
  registry : String → Option Guide
  trainOp : Guide → Scale → Option Guide
  mergeOp : Guide → Guide → Guide
  createGeomsOp : Guide → Plot → Option Guide
  setDefaultsOp : Guide → Params → Guide
  drawOp : Guide → Params → GuideBox
  argsortFn : List Int → List Nat

/-- The observable outcome of `guides.build`: the theme parameters after the
set-if-unset filling, the returned value (a composite box, nothing, or a
raised error), and the final state of the guide definition objects that
reached `assemble` (they are mutated in place in the source). -/
structure BuildResult where
  params : Params
  outcome : Except GgplotError (Option PackedBox)
  gdefsFinal : List Guide
  deriving Repr

namespace guides

/-- The six recognized aesthetic names of `guides.__init__`. -/
def aes_names : List String := ["alpha", "color", "fill", "linetype", "shape", "size"]

/-- `guides.__init__`: build the collection from keyword configuration.
A `colour` key is popped and rewritten to `color`; only keys among
`aes_names` are kept; everything else is silently dropped.  Dicts are
modelled extensionally as lookup functions. -/
def init (kwargs : String → Option GuideSpec) : String → Option GuideSpec :=
  let kwargs2 :=
    match kwargs "colour" with
    | some v => fun k =>
        if k = "color" then some v
        else if k = "colour" then none
        else kwargs k
    | none => kwargs
  fun ae => if ae ∈ aes_names then kwargs2 ae else none

/-- The primary aesthetic of a scale, `scale.aesthetics[0]` in the source
(the Scale contract guarantees the list is non-empty). -/
def primaryAes (scale : Scale) : String := scale.aesthetics.headD ""

/-- The spec-resolution step of `guides.train`:
`guide = self.get(output, scale.guide)` — the per-aesthetic entry of the
collection, defaulting to the guide declared on the scale. -/
def resolveSpec (self : String → Option GuideSpec) (scale : Scale) : GuideSpec :=
  match self (primaryAes scale) with
  | some sp => sp
  | none => scale.guide

/-- `guides.validate`: a string spec is looked up in the registry under the
key `"guide_" + identifier` (the registry value is the result of the
zero-argument instantiation); anything that is not a guide object after
that raises the unknown-guide error.
Modelled from the spec for the registry-miss case: the Registry collaborator
is outside this module; per the spec an unregistered identifier fails with
the unknown-guide configuration error. -/
def validate (registry : String → Option Guide) : GuideSpec → Except GgplotError Guide
  | .str s =>
      match registry ("guide_" ++ s) with
      | some g => .ok g
      | none => .error .unknownGuide
  | .obj g => .ok g
  | _ => .error .unknownGuide

/-- The title-resolution step of `guides.train`: a waived title is replaced
by `scale.name` when that is truthy (present and non-empty), else by the
plot label of the primary aesthetic. -/
def setTitle (labels : String → String) (scale : Scale) (g : Guide) : Guide :=
  match g.title with
  | .waive =>
      { g with
        title := .strv
          (match scale.name with
           | some n => if n = "" then labels (primaryAes scale) else n
           | none => labels (primaryAes scale)) }
  | .strv _ => g

/-- The direction-resolution step of `guides.train`: an unset direction
inherits the legend_direction theme parameter. -/
def setDirection (params : Params) (g : Guide) : Guide :=
  match g.direction with
  | none => { g with direction := params.legend_direction }
  | some _ => g

/-- The per-scale body of `guides.train`, after spec resolution: skip on
None/False, validate, check aesthetic compatibility, resolve title and
direction, then delegate to the guide object train method. -/
def processSpec (registry : String → Option Guide) (trainOp : Guide → Scale → Option Guide)
    (labels : String → String) (params : Params) (scale : Scale) :
    GuideSpec → Except GgplotError (Option Guide)
  | .pynone => .ok none
  | .pyfalse => .ok none
  | sp =>
    match validate registry sp with
    | .error e => .error e
    | .ok g =>
      match g.available_aes with
      | some aes =>
          if primaryAes scale ∈ aes then
            .ok (trainOp (setDirection params (setTitle labels scale g)) scale)
          else
            .error .aesMismatch
      | none => .ok (trainOp (setDirection params (setTitle labels scale g)) scale)

/-- One iteration of the `guides.train` loop for a single scale. -/
def trainScale (self : String → Option GuideSpec) (registry : String → Option Guide)
    (trainOp : Guide → Scale → Option Guide) (labels : String → String)
    (params : Params) (scale : Scale) : Except GgplotError (Option Guide) :=
  processSpec registry trainOp labels params scale (resolveSpec self scale)

/-- `guides.train`: iterate the scales in plot order, collecting the
non-dropped guide definitions; the first error aborts the loop. -/
def train (self : String → Option GuideSpec) (registry : String → Option Guide)
    (trainOp : Guide → Scale → Option Guide) (labels : String → String)
    (params : Params) : List Scale → Except GgplotError (List Guide)
  | [] => .ok []
  | scale :: rest =>
    match trainScale self registry trainOp labels params scale with
    | .error e => .error e
    | .ok og =>
      match train self registry trainOp labels params rest with
      | .error e => .error e
      | .ok gs =>
        match og with
        | some g => .ok (g :: gs)
        | none => .ok gs

/-- The distinct hash keys of the guide definitions, in ascending order:
the pandas groupby of `guides.merge` iterates the groups by sorted key. -/
def sortedHashes (gdefs : List Guide) : List Nat :=
  List.insertionSort (fun a b => a ≤ b) (gdefs.map Guide.hash).dedup

/-- `guides.merge`: group the definitions by hash and reduce each group to a
single definition by folding it left-to-right with the pairwise guide merge
method. -/
def merge (op : Guide → Guide → Guide) (gdefs : List Guide) : List Guide :=
  (sortedHashes gdefs).filterMap fun h =>
    match gdefs.filter (fun g => g.hash == h) with
    | [] => none
    | g :: gs => some (gs.foldl op g)

/-- `guides.create_geoms`: ask each definition to materialize its key
geometry; definitions whose result is falsy are dropped. -/
def create_geoms (op : Guide → Plot → Option Guide) (plot : Plot)
    (gdefs : List Guide) : List Guide :=
  gdefs.filterMap fun g => op g plot

/-- The in-place rewrite the `assemble` loop applies to one guide definition
whose order passes the range check: order 0 becomes 100. -/
def normalizeGuide (g : Guide) : Guide :=
  if g.order = 0 then { g with order := 100 } else g

/-- The first loop of `guides.assemble`, with the in-place list mutation made
explicit: each definition with order 0 is rewritten to order 100; a
definition with order outside 0..99 raises, leaving the already processed
prefix mutated and the rest untouched.  Returns the final state of the list
and the raised error, if any. -/
def normalizeOrders : List Guide → List Guide × Option GgplotError
  | [] => ([], none)
  | g :: gs =>
    if g.order = 0 then
      let r := normalizeOrders gs
      ({ g with order := 100 } :: r.1, r.2)
    else if 0 ≤ g.order ∧ g.order ≤ 99 then
      let r := normalizeOrders gs
      (g :: r.1, r.2)
    else
      (g :: gs, some .badOrder)

/-- `gboxes = [gboxes[i] for i in idx]` of `guides.assemble`. -/
def permuteBoxes (gboxes : List GuideBox) (idx : List Nat) : List GuideBox :=
  idx.map fun i => gboxes.getD i default

/-- The numpy argsort contract (np.argsort with the default quicksort kind):
the result is a permutation of the index range whose induced value sequence
is non-decreasing.  Numpy documents no further property for the default
kind; in particular the order of equal elements is NOT specified (the
stable kind is a different, non-default option). -/
def IsArgsortOf (orders : List Int) (idx : List Nat) : Prop :=
  List.Perm idx (List.range orders.length) ∧
  List.Pairwise (fun a b : Int => a ≤ b) (idx.map fun i => orders.getD i 0)

/-- The tail of `guides.assemble` after the order loop succeeded: sort the
boxes by the argsort of the (normalized) orders, pick the packer from the
legend_box parameter (raising on anything else), and pack with the
legend_box_just alignment, pad 0 and sep 20. -/
def assembleBox (fn : List Int → List Nat) (params : Params)
    (gboxes : List GuideBox) (gdefs2 : List Guide) : Except GgplotError PackedBox :=
  let orders := gdefs2.map Guide.order
  let idx := fn orders
  let gboxes2 := permuteBoxes gboxes idx
  match params.legend_box with
  | some s =>
      if s = "vertical" then
        .ok ⟨false, gboxes2, params.legend_box_just, 0, 20⟩
      else if s = "horizontal" then
        .ok ⟨true, gboxes2, params.legend_box_just, 0, 20⟩
      else .error .badLegendBox
  | none => .error .badLegendBox

/-- `guides.assemble`: run the order-normalization loop, then on success
build the composite box.  The first component is the final state of the
guide definition list (mutated in place in the source). -/
def assemble (fn : List Int → List Nat) (params : Params) (gboxes : List GuideBox)
    (gdefs : List Guide) : List Guide × Except GgplotError PackedBox :=
  match normalizeOrders gdefs with
  | (gdefs2, some e) => (gdefs2, .error e)
  | (gdefs2, none) => (gdefs2, assembleBox fn params gboxes gdefs2)

/-- The `orders` list `guides.assemble` feeds to np.argsort: the order
attributes of the definitions after the normalization loop. -/
def assembleOrders (gdefs : List Guide) : List Int :=
  (normalizeOrders gdefs).1.map Guide.order

/-- The `set_if_none` helper of `guides.build`. -/
def set_if_none (cur val : Option α) : Option α :=
  match cur with
  | none => val
  | some v => some v

/-- The theme-parameter filling prefix of `guides.build`, in source order:
legend_box, key width and height from key size, legend_box again (the
source repeats the call), legend_position, then legend_direction and
legend_box_just depending on the (now filled) position. -/
def buildParams (p : Params) : Params :=
  let lb := set_if_none p.legend_box (some "vertical")
  let lw := set_if_none p.legend_key_width p.legend_key_size
  let lh := set_if_none p.legend_key_height p.legend_key_size
  let lb2 := set_if_none lb (some "vertical")
  let lp := set_if_none p.legend_position (some "right")
  let ld :=
    if lp = some "top" ∨ lp = some "bottom" then
      set_if_none p.legend_direction (some "horizontal")
    else
      set_if_none p.legend_direction (some "vertical")
  let lbj :=
    if lp = some "left" ∨ lp = some "right" then
      set_if_none p.legend_box_just (some "left")
    else
      set_if_none p.legend_box_just (some "center")
  { p with
    legend_box := lb2, legend_key_width := lw, legend_key_height := lh,
    legend_position := lp, legend_direction := ld, legend_box_just := lbj }

/-- `guides.build`: fill the theme parameters, train, early-return on no
definitions, merge, attach geoms, early-return on no survivors, apply the
per-guide theme defaults, draw, and assemble.  The result records the
filled parameters, the returned value or raised error, and the final state
of the definitions that reached assemble. -/
def build (self : String → Option GuideSpec) (C : Collaborators) (plot : Plot) :
    BuildResult :=
  let params := buildParams plot.params
  match train self C.registry C.trainOp plot.labels params plot.scales with
  | .error e => ⟨params, .error e, []⟩
  | .ok gdefs =>
    if gdefs.isEmpty then ⟨params, .ok none, gdefs⟩
    else
      let gdefs1 := merge C.mergeOp gdefs
      let gdefs2 := create_geoms C.createGeomsOp plot gdefs1
      if gdefs2.isEmpty then ⟨params, .ok none, gdefs2⟩
      else
        let gdefs3 := gdefs2.map fun g => C.setDefaultsOp g params
        let gboxes := gdefs3.map fun g => C.drawOp g params
        match assemble C.argsortFn params gboxes gdefs3 with
        | (gdefs4, .error e) => ⟨params, .error e, gdefs4⟩
        | (gdefs4, .ok box) => ⟨params, .ok (some box), gdefs4⟩

end guides

/-! ### Concrete instances used by witnesses and counterexamples -/

/-- A registered guide instance for the registry witness. -/
def gLegend : Guide := ⟨none, .waive, none, 1, 3⟩

/-- A concrete registry knowing only the key "guide_legend". -/
def regCex : String → Option Guide := fun k =>
  if k = "guide_legend" then some gLegend else none

/-- Concrete keyword configuration: a colour entry and an unrecognized key. -/
def kwCex : String → Option GuideSpec := fun k =>
  if k = "colour" then some (.str "legend")
  else if k = "zzz" then some .other
  else none

/-- Concrete theme parameters: position bottom, direction and box_just unset. -/
def pBottom : Params := ⟨some "v0", some 5, some 7, none, some "bottom", none, none⟩

/-- A collection override mapping the color aesthetic to Python False. -/
def selfOv : String → Option GuideSpec := fun k =>
  if k = "color" then some .pyfalse else none

/-- A color scale carrying its own guide object. -/
def scaleColor : Scale := ⟨["color"], .obj gLegend, some "nm"⟩

/-- A guide definition with order 100 (out of range). -/
def gOrd100 : Guide := ⟨none, .waive, none, 100, 0⟩

/-- A guide definition with order -1 (out of range). -/
def gOrdNeg : Guide := ⟨none, .waive, none, -1, 0⟩

/-- An argsort implementation used where the sort outcome is irrelevant. -/
def fnId : List Int → List Nat := fun l => List.range l.length

/-- A guide definition with order 0 for the mutation counterexample. -/
def g0cex : Guide := ⟨none, .strv "t", some "vertical", 0, 7⟩

/-- A scale carrying the order-0 guide definition. -/
def scaleCex : Scale := ⟨["color"], .obj g0cex, some "nm"⟩

/-- Fully set theme parameters (nothing to fill). -/
def pCexFull : Params :=
  ⟨some "vertical", some 5, some 5, some 5, some "right", some "vertical", some "left"⟩

/-- A concrete plot with one scale. -/
def plotCex : Plot := ⟨[scaleCex], fun _ => "lbl", pCexFull⟩

/-- The empty collection. -/
def selfNone : String → Option GuideSpec := fun _ => none

/-- Concrete collaborators: identity-like guide methods, a fixed box, and the
identity argsort. -/
def collabCex : Collaborators :=
  ⟨fun _ => none, fun g _ => some g, fun a _ => a, fun g _ => some g, fun g _ => g,
   fun _ _ => ⟨0⟩, fnId⟩

/-- A concrete plot with no scales at all. -/
def plotEmpty : Plot := ⟨[], fun _ => "lbl", pBottom⟩

/-- Two guide definitions sharing the order value 5 (distinct hashes). -/
def gEqA : Guide := ⟨none, .strv "a", some "vertical", 5, 0⟩

/-- Second guide definition with order 5. -/
def gEqB : Guide := ⟨none, .strv "b", some "vertical", 5, 1⟩

/-- Another guide definition with order 0, hash 2. -/
def gZed : Guide := ⟨none, .strv "z", some "vertical", 0, 2⟩

/-- The drawn box of the first guide. -/
def boxA : GuideBox := ⟨0⟩

/-- The drawn box of the second guide. -/
def boxB : GuideBox := ⟨1⟩

/-- An argsort implementation returning the reversed two-element index
order; on a two-element input with equal values this satisfies the argsort
contract. -/
def fnSwap : List Int → List Nat := fun _ => [1, 0]

/-- First guide for the merge witness (hash 1). -/
def gM0 : Guide := ⟨none, .strv "m0", some "vertical", 1, 1⟩

/-- Second guide for the merge witness (hash 0). -/
def gM1 : Guide := ⟨none, .strv "m1", some "vertical", 2, 0⟩

/-- Third guide for the merge witness (hash 1 again, same group as the
first). -/
def gM2 : Guide := ⟨none, .strv "m2", some "vertical", 3, 1⟩

/-- A concrete pairwise merge operation: keep the first definition, sum the
orders. -/
def opW : Guide → Guide → Guide := fun a b => { a with order := a.order + b.order }

/-! ### Claim theorems -/

/-- Helper: `set_if_none` keeps an already set value. -/
theorem set_if_none_some {α : Type} (cur val : Option α) (v : α) (h : cur = some v) :
    guides.set_if_none cur val = some v := by
  rw [h]; rfl

/-- C4: keys outside the six recognized aesthetics are absent from the
collection built by `guides.__init__` (silently, the function is total),
and a `colour` key is rewritten to `color` with its value preserved. -/
theorem init_drops_unknown_keys_and_renames_colour
    (kwargs : String → Option GuideSpec) (k : String) :
    (k ∉ guides.aes_names → guides.init kwargs k = none) ∧
    (∀ v, kwargs "colour" = some v → guides.init kwargs "color" = some v) := by
  constructor
  · intro hk
    unfold guides.init
    cases kwargs "colour" <;> simp [hk]
  · intro v hv
    unfold guides.init
    rw [hv]
    simp [guides.aes_names]

/-- Witness for C4: the unrecognized key "zzz" is dropped and the colour
entry reappears under color. -/
theorem init_drops_unknown_keys_and_renames_colour_witness :
    guides.init kwCex "zzz" = none ∧
    guides.init kwCex "color" = some (.str "legend") :=
  ⟨(init_drops_unknown_keys_and_renames_colour kwCex "zzz").1 (by decide),
   (init_drops_unknown_keys_and_renames_colour kwCex "color").2 (.str "legend") (by rfl)⟩

/-- C6: a string spec is resolved through the registry under the key
`"guide_" + identifier`; an unregistered identifier and a non-guide object
both fail with the unknown-guide configuration error; a guide object is
returned as is. -/
theorem validate_registry_lookup_unknown_guide
    (registry : String → Option Guide) (s : String) :
    (∀ g, registry ("guide_" ++ s) = some g →
        guides.validate registry (.str s) = .ok g) ∧
    (registry ("guide_" ++ s) = none →
        guides.validate registry (.str s) = .error .unknownGuide) ∧
    (∀ g, guides.validate registry (.obj g) = .ok g) ∧
    (guides.validate registry .other = .error .unknownGuide) ∧
    GgplotError.unknownGuide.message = "Unknown guide" := by
  refine ⟨?_, ?_, fun g => rfl, rfl, rfl⟩
  · intro g hg
    simp only [guides.validate, hg]
  · intro hg
    simp only [guides.validate, hg]

/-- Witness for C6: the registered identifier "legend" resolves, the
unregistered identifier "nope" fails with the unknown-guide error. -/
theorem validate_registry_lookup_unknown_guide_witness :
    guides.validate regCex (.str "legend") = .ok gLegend ∧
    guides.validate regCex (.str "nope") = .error .unknownGuide :=
  ⟨(validate_registry_lookup_unknown_guide regCex "legend").1 gLegend (by rfl),
   (validate_registry_lookup_unknown_guide regCex "nope").2.1 (by rfl)⟩

/-- C8: with legend_position bottom and direction and box justification
unset, `build` fills legend_direction with horizontal and legend_box_just
with center; every already-set legend option is left unchanged. -/
theorem build_params_bottom_horizontal_center (p : Params)
    (hpos : p.legend_position = some "bottom")
    (hdir : p.legend_direction = none)
    (hjust : p.legend_box_just = none) :
    (guides.buildParams p).legend_direction = some "horizontal" ∧
    (guides.buildParams p).legend_box_just = some "center" ∧
    (∀ v, p.legend_box = some v → (guides.buildParams p).legend_box = some v) ∧
    (∀ v, p.legend_key_width = some v → (guides.buildParams p).legend_key_width = some v) ∧
    (∀ v, p.legend_key_height = some v → (guides.buildParams p).legend_key_height = some v) ∧
    (∀ v, p.legend_position = some v → (guides.buildParams p).legend_position = some v) := by
  refine ⟨?_, ?_, ?_, ?_, ?_, ?_⟩
  · simp [guides.buildParams, guides.set_if_none, hpos, hdir]
  · simp [guides.buildParams, guides.set_if_none, hpos, hjust]
  · intro v hv
    simp [guides.buildParams, guides.set_if_none, hv]
  · intro v hv
    simp [guides.buildParams, guides.set_if_none, hv]
  · intro v hv
    simp [guides.buildParams, guides.set_if_none, hv]
  · intro v hv
    simp [guides.buildParams, guides.set_if_none, hv]

/-- Witness for C8 at concrete parameters. -/
theorem build_params_bottom_horizontal_center_witness :
    (guides.buildParams pBottom).legend_direction = some "horizontal" ∧
    (guides.buildParams pBottom).legend_box_just = some "center" ∧
    (guides.buildParams pBottom).legend_box = some "v0" :=
  ⟨(build_params_bottom_horizontal_center pBottom rfl rfl rfl).1,
   (build_params_bottom_horizontal_center pBottom rfl rfl rfl).2.1,
   (build_params_bottom_horizontal_center pBottom rfl rfl rfl).2.2.1 "v0" rfl⟩

/-- C5: spec resolution priority and the None/False skip of `guides.train`:
the per-aesthetic entry of the collection (keyed by the primary aesthetic of
the scale) overrides the guide attribute of the scale, which is used only
when the collection has no entry; when the resolved spec is Python None or
False the scale is skipped entirely, producing no guide definition and no
error. -/
theorem train_override_priority_and_none_skip
    (self : String → Option GuideSpec) (registry : String → Option Guide)
    (trainOp : Guide → Scale → Option Guide) (labels : String → String)
    (params : Params) (scale : Scale) :
    (∀ sp, self (guides.primaryAes scale) = some sp →
        guides.resolveSpec self scale = sp) ∧
    (self (guides.primaryAes scale) = none →
        guides.resolveSpec self scale = scale.guide) ∧
    (guides.resolveSpec self scale = .pynone ∨ guides.resolveSpec self scale = .pyfalse →
        guides.trainScale self registry trainOp labels params scale = .ok none) := by
  refine ⟨?_, ?_, ?_⟩
  · intro sp h
    simp [guides.resolveSpec, h]
  · intro h
    simp [guides.resolveSpec, h]
  · intro h
    unfold guides.trainScale
    rcases h with h | h <;> rw [h] <;> rfl

/-- Witness for C5: the collection entry False for color wins over the guide
object declared on the scale, and the scale is skipped. -/
theorem train_override_priority_and_none_skip_witness :
    guides.resolveSpec selfOv scaleColor = .pyfalse ∧
    guides.trainScale selfOv regCex (fun g _ => some g) (fun _ => "lbl") pBottom scaleColor
      = .ok none :=
  ⟨(train_override_priority_and_none_skip selfOv regCex (fun g _ => some g)
      (fun _ => "lbl") pBottom scaleColor).1 .pyfalse (by rfl),
   (train_override_priority_and_none_skip selfOv regCex (fun g _ => some g)
      (fun _ => "lbl") pBottom scaleColor).2.2 (Or.inr (by rfl))⟩

/-- Helper: the normalization loop on an all-in-range list succeeds and maps
`normalizeGuide` over the list. -/
theorem normalizeOrders_ok (gdefs : List Guide)
    (hall : ∀ g ∈ gdefs, 0 ≤ g.order ∧ g.order ≤ 99) :
    guides.normalizeOrders gdefs = (gdefs.map guides.normalizeGuide, none) := by
  induction gdefs with
  | nil => rfl
  | cons g gs ih =>
    have hg := hall g (by simp)
    have ih2 := ih (fun x hx => hall x (by simp [hx]))
    by_cases h0 : g.order = 0
    · simp [guides.normalizeOrders, h0, ih2, guides.normalizeGuide]
    · simp [guides.normalizeOrders, h0, hg, ih2, guides.normalizeGuide]

/-- Helper: an out-of-range order somewhere in the list makes the
normalization loop of assemble raise the order error. -/
theorem normalizeOrders_bad_snd (gdefs : List Guide)
    (hbad : ∃ g ∈ gdefs, g.order < 0 ∨ 99 < g.order) :
    (guides.normalizeOrders gdefs).2 = some .badOrder := by
  induction gdefs with
  | nil =>
    rcases hbad with ⟨g, hg, _⟩
    cases hg
  | cons g gs ih =>
    rcases hbad with ⟨b, hb, hbord⟩
    by_cases h0 : g.order = 0
    · have hbtail : b ∈ gs := by
        rcases List.mem_cons.mp hb with rfl | h
        · exfalso; rcases hbord with h | h <;> omega
        · exact h
      simp [guides.normalizeOrders, h0, ih ⟨b, hbtail, hbord⟩]
    · by_cases hr : 0 ≤ g.order ∧ g.order ≤ 99
      · have hbtail : b ∈ gs := by
          rcases List.mem_cons.mp hb with rfl | h
          · exfalso; rcases hbord with h | h <;> omega
          · exact h
        simp [guides.normalizeOrders, h0, hr, ih ⟨b, hbtail, hbord⟩]
      · simp [guides.normalizeOrders, h0, hr]

/-- Helper: the list-state component of assemble is the post-loop state. -/
theorem assemble_fst (fn : List Int → List Nat) (params : Params)
    (gboxes : List GuideBox) (gdefs : List Guide) :
    (guides.assemble fn params gboxes gdefs).1 = (guides.normalizeOrders gdefs).1 := by
  unfold guides.assemble
  rcases h : guides.normalizeOrders gdefs with ⟨gs2, err⟩
  cases err <;> rfl

/-- C3: a guide definition whose order is outside 0..99 (such as 100 or -1)
makes `assemble`, and hence `build`, raise the order configuration error
with the documented message; the outcome is the error, so no composite box
is produced. -/
theorem assemble_out_of_range_order_error
    (fn : List Int → List Nat) (params : Params) (gboxes : List GuideBox)
    (gdefs : List Guide) (hbad : ∃ g ∈ gdefs, g.order < 0 ∨ 99 < g.order) :
    (guides.assemble fn params gboxes gdefs).2 = .error .badOrder ∧
    GgplotError.badOrder.message = "\x27order\x27 for a guide should be between 0 and 99" := by
  refine ⟨?_, rfl⟩
  have h2 := normalizeOrders_bad_snd gdefs hbad
  unfold guides.assemble
  rcases h : guides.normalizeOrders gdefs with ⟨gs2, err⟩
  rw [h] at h2
  simp at h2
  subst h2
  rfl

/-- Witness for C3: order 100 and order -1 both raise the order error. -/
theorem assemble_out_of_range_order_error_witness :
    (guides.assemble fnId pBottom [] [gOrd100]).2 = .error .badOrder ∧
    (guides.assemble fnId pBottom [] [gOrdNeg]).2 = .error .badOrder :=
  ⟨(assemble_out_of_range_order_error fnId pBottom [] [gOrd100]
      ⟨gOrd100, by simp, by decide⟩).1,
   (assemble_out_of_range_order_error fnId pBottom [] [gOrdNeg]
      ⟨gOrdNeg, by simp, by decide⟩).1⟩

/-- C1 (amended): assemble rewrites a zero order to 100 on the guide
definition object itself and the rewrite is persisted: when every order is
in range the loop completes and the final state of the definition list (the
state also returned by build) is the `normalizeGuide` image, in which every
definition that came in with order 0 now carries order 100. -/
theorem assemble_persists_zero_order_normalization
    (fn : List Int → List Nat) (params : Params) (gboxes : List GuideBox)
    (gdefs : List Guide) (hall : ∀ g ∈ gdefs, 0 ≤ g.order ∧ g.order ≤ 99) :
    (guides.assemble fn params gboxes gdefs).1 = gdefs.map guides.normalizeGuide ∧
    ∀ g ∈ gdefs, g.order = 0 →
      { g with order := 100 } ∈ (guides.assemble fn params gboxes gdefs).1 := by
  have h1 : (guides.assemble fn params gboxes gdefs).1 = gdefs.map guides.normalizeGuide := by
    rw [assemble_fst, normalizeOrders_ok gdefs hall]
  refine ⟨h1, ?_⟩
  intro g hg h0
  rw [h1]
  have hng : guides.normalizeGuide g = { g with order := 100 } := by
    simp [guides.normalizeGuide, h0]
  exact hng ▸ List.mem_map_of_mem guides.normalizeGuide hg

/-- Witness for C1 (amended) at a concrete list. -/
theorem assemble_persists_zero_order_normalization_witness :
    (guides.assemble fnId pBottom [] [g0cex, gLegend]).1 =
      [g0cex, gLegend].map guides.normalizeGuide ∧
    { g0cex with order := 100 } ∈ (guides.assemble fnId pBottom [] [g0cex, gLegend]).1 :=
  ⟨(assemble_persists_zero_order_normalization fnId pBottom [] [g0cex, gLegend]
      (by decide)).1,
   (assemble_persists_zero_order_normalization fnId pBottom [] [g0cex, gLegend]
      (by decide)).2 g0cex (by decide) (by decide)⟩

/-- C1 counterexample: a concrete build whose single guide definition has
order 0.  After build completes the definition carries order 100: the
normalization is persisted on the object, the original 0 is not preserved. -/
theorem build_order_zero_mutation_cex :
    g0cex.order = 0 ∧
    (guides.build selfNone collabCex plotCex).gdefsFinal = [{ g0cex with order := 100 }] ∧
    (guides.build selfNone collabCex plotCex).gdefsFinal ≠ [g0cex] := by
  refine ⟨rfl, by rfl, ?_⟩
  intro h
  rw [show (guides.build selfNone collabCex plotCex).gdefsFinal
        = [{ g0cex with order := 100 }] from rfl] at h
  simp [g0cex] at h

/-- Helper: loop state of assemble when the first out-of-range definition
sits after an all-in-range prefix. -/
theorem normalizeOrders_split (pre post : List Guide) (bad : Guide)
    (hpre : ∀ g ∈ pre, 0 ≤ g.order ∧ g.order ≤ 99)
    (hbad : bad.order < 0 ∨ 99 < bad.order) :
    guides.normalizeOrders (pre ++ bad :: post) =
      (pre.map guides.normalizeGuide ++ bad :: post, some .badOrder) := by
  induction pre with
  | nil =>
    have h0 : ¬ bad.order = 0 := by intro hc; rcases hbad with h | h <;> omega
    have hr : ¬ (0 ≤ bad.order ∧ bad.order ≤ 99) := by
      intro hc; rcases hbad with h | h <;> omega
    simp [guides.normalizeOrders, h0, hr]
  | cons g gs ih =>
    have hg := hpre g (by simp)
    have ih2 := ih (fun x hx => hpre x (by simp [hx]))
    by_cases h0 : g.order = 0
    · simp [guides.normalizeOrders, h0, ih2, guides.normalizeGuide]
    · simp [guides.normalizeOrders, h0, hg, ih2, guides.normalizeGuide]

/-- C10: assemble is not atomic on the order error: when the loop raises at
the first out-of-range definition, every earlier definition that had order
0 has already been rewritten to order 100 in the final list state, the
offender and everything after it are untouched, and the error propagates
without undoing those mutations. -/
theorem assemble_error_keeps_prior_order_mutations
    (fn : List Int → List Nat) (params : Params) (gboxes : List GuideBox)
    (pre post : List Guide) (bad : Guide)
    (hpre : ∀ g ∈ pre, 0 ≤ g.order ∧ g.order ≤ 99)
    (hbad : bad.order < 0 ∨ 99 < bad.order) :
    guides.assemble fn params gboxes (pre ++ bad :: post) =
      (pre.map guides.normalizeGuide ++ bad :: post, .error .badOrder) ∧
    ∀ g ∈ pre, g.order = 0 → guides.normalizeGuide g = { g with order := 100 } := by
  refine ⟨?_, ?_⟩
  · unfold guides.assemble
    rw [normalizeOrders_split pre post bad hpre hbad]
  · intro g hg h0
    simp [guides.normalizeGuide, h0]

/-- Witness for C10: an order-0 guide before the offender is already
rewritten to 100 in the state assemble leaves behind with its error. -/
theorem assemble_error_keeps_prior_order_mutations_witness :
    guides.assemble fnId pBottom [] ([g0cex] ++ gOrd100 :: [gLegend]) =
      ([{ g0cex with order := 100 }] ++ gOrd100 :: [gLegend], .error .badOrder) ∧
    guides.normalizeGuide g0cex = { g0cex with order := 100 } :=
  ⟨(assemble_error_keeps_prior_order_mutations fnId pBottom [] [g0cex] [gLegend] gOrd100
      (by decide) (by decide)).1,
   (assemble_error_keeps_prior_order_mutations fnId pBottom [] [g0cex] [gLegend] gOrd100
      (by decide) (by decide)).2 g0cex (by decide) (by decide)⟩

/-- Helper: filling an unset option with a concrete default yields a set
option. -/
theorem set_if_none_isSome {α : Type} (cur : Option α) (v : α) :
    (guides.set_if_none cur (some v)).isSome := by
  cases cur <;> rfl

/-- C9: with an empty scales list, build returns nothing (no composite box
and no error, and no guide definitions), yet the theme parameters have
already been filled with the legend layout defaults under set-if-unset
semantics before the early return. -/
theorem build_empty_scales_returns_none_fills_params
    (self : String → Option GuideSpec) (C : Collaborators) (plot : Plot)
    (hscales : plot.scales = []) :
    guides.build self C plot = ⟨guides.buildParams plot.params, .ok none, []⟩ ∧
    (guides.buildParams plot.params).legend_box.isSome ∧
    (guides.buildParams plot.params).legend_position.isSome ∧
    (guides.buildParams plot.params).legend_direction.isSome ∧
    (guides.buildParams plot.params).legend_box_just.isSome ∧
    (plot.params.legend_key_width = none →
      (guides.buildParams plot.params).legend_key_width = plot.params.legend_key_size) ∧
    (plot.params.legend_key_height = none →
      (guides.buildParams plot.params).legend_key_height = plot.params.legend_key_size) := by
  refine ⟨?_, ?_, ?_, ?_, ?_, ?_, ?_⟩
  · simp [guides.build, hscales, guides.train]
  · simp only [guides.buildParams]
    exact set_if_none_isSome _ "vertical"
  · simp only [guides.buildParams]
    exact set_if_none_isSome _ "right"
  · simp only [guides.buildParams]
    split <;> apply set_if_none_isSome
  · simp only [guides.buildParams]
    split <;> apply set_if_none_isSome
  · intro h
    simp [guides.buildParams, guides.set_if_none, h]
  · intro h
    simp [guides.buildParams, guides.set_if_none, h]

/-- Witness for C9 at a concrete plot with no scales. -/
theorem build_empty_scales_returns_none_fills_params_witness :
    guides.build selfNone collabCex plotEmpty = ⟨guides.buildParams pBottom, .ok none, []⟩ ∧
    (guides.buildParams pBottom).legend_box.isSome :=
  ⟨(build_empty_scales_returns_none_fills_params selfNone collabCex plotEmpty rfl).1,
   (build_empty_scales_returns_none_fills_params selfNone collabCex plotEmpty rfl).2.1⟩

/-- Helper: positions of a pairwise-nondecreasing integer list are ordered. -/
theorem pairwise_le_getD (l : List Int)
    (hp : List.Pairwise (fun a b : Int => a ≤ b) l)
    (p q : Nat) (hpq : p < q) (hq : q < l.length) :
    l.getD p 0 ≤ l.getD q 0 := by
  have hplt := lt_trans hpq hq
  rw [List.getD_eq_getElem _ _ hplt, List.getD_eq_getElem _ _ hq]
  exact List.pairwise_iff_get.mp hp ⟨p, hplt⟩ ⟨q, hq⟩ hpq

/-- Helper: `getD` through a map of `getD` lookups. -/
theorem getD_map_getD (orders : List Int) (idx : List Nat) (p : Nat)
    (hp : p < idx.length) :
    (idx.map fun i => orders.getD i 0).getD p 0 = orders.getD (idx.getD p 0) 0 := by
  rw [List.getD_eq_getElem _ _ (by simpa using hp), List.getD_eq_getElem idx 0 hp]
  simp

/-- C2 (amended): assemble feeds argsort the normalized orders (0 becomes
100, in-range values are kept), and any index permutation satisfying the
argsort contract places every guide with normalized key 100 (original
order 0) after every guide with order in 1..99: if position p of the
sorted output holds a key-100 guide, so does every later position q.  The
relative order of guides with equal keys is left open by the contract (the
default numpy sort kind is not documented stable), so stability is not
asserted. -/
theorem assemble_zero_order_guides_sort_last
    (gdefs : List Guide) (idx : List Nat) (p q : Nat)
    (hall : ∀ g ∈ gdefs, 0 ≤ g.order ∧ g.order ≤ 99)
    (hidx : guides.IsArgsortOf (guides.assembleOrders gdefs) idx)
    (hpq : p < q) (hq : q < idx.length)
    (hp100 : (guides.assembleOrders gdefs).getD (idx.getD p 0) 0 = 100) :
    (guides.assembleOrders gdefs).getD (idx.getD q 0) 0 = 100 ∧
    guides.assembleOrders gdefs =
      gdefs.map (fun g => if g.order = 0 then 100 else g.order) := by
  have horders : guides.assembleOrders gdefs =
      gdefs.map (fun g => if g.order = 0 then 100 else g.order) := by
    unfold guides.assembleOrders
    rw [normalizeOrders_ok gdefs hall, List.map_map]
    congr 1
    funext g
    by_cases h0 : g.order = 0 <;> simp [guides.normalizeGuide, h0]
  have hmem : ∀ x ∈ guides.assembleOrders gdefs, x ≤ 100 := by
    intro x hx
    rw [horders] at hx
    rcases List.mem_map.mp hx with ⟨g, hg, rfl⟩
    have hgo := hall g hg
    by_cases h0 : g.order = 0
    · simp [h0]
    · simp only [h0, if_false]
      omega
  have hub : ∀ i, (guides.assembleOrders gdefs).getD i 0 ≤ 100 := by
    intro i
    by_cases hi : i < (guides.assembleOrders gdefs).length
    · rw [List.getD_eq_getElem _ _ hi]
      exact hmem _ (List.getElem_mem hi)
    · rw [List.getD_eq_default _ _ (Nat.le_of_not_lt hi)]
      omega
  obtain ⟨hperm, hpair⟩ := hidx
  have hplt : p < idx.length := lt_trans hpq hq
  have h1 := pairwise_le_getD _ hpair p q hpq (by simpa using hq)
  rw [getD_map_getD _ _ p hplt, getD_map_getD _ _ q hq] at h1
  have h2 := hub (idx.getD q 0)
  refine ⟨by omega, horders⟩

/-- Witness for C2 (amended): three guides with orders 0, 5, 0; under the
valid argsort [1, 0, 2] the key-5 guide comes first and both key-100
positions sit at the end. -/
theorem assemble_zero_order_guides_sort_last_witness :
    (guides.assembleOrders [g0cex, gEqA, gZed]).getD
      (([1, 0, 2] : List Nat).getD 2 0) 0 = 100 ∧
    guides.assembleOrders [g0cex, gEqA, gZed] =
      [g0cex, gEqA, gZed].map (fun g => if g.order = 0 then 100 else g.order) :=
  ⟨(assemble_zero_order_guides_sort_last [g0cex, gEqA, gZed] [1, 0, 2] 1 2
      (by decide) ⟨by decide, by decide⟩ (by decide) (by decide) (by decide)).1,
   (assemble_zero_order_guides_sort_last [g0cex, gEqA, gZed] [1, 0, 2] 1 2
      (by decide) ⟨by decide, by decide⟩ (by decide) (by decide) (by decide)).2⟩

/-- C2 counterexample: the argsort contract of the default numpy sort kind
does not force stability.  For two guides with the same order 5, the
reversed index order [1, 0] satisfies the contract, and under an argsort
implementation returning it assemble packs the two equal-order boxes in
swapped relative order, violating the claimed stability. -/
theorem assemble_equal_order_swap_cex :
    guides.IsArgsortOf (guides.assembleOrders [gEqA, gEqB])
      (fnSwap (guides.assembleOrders [gEqA, gEqB])) ∧
    (guides.assemble fnSwap pCexFull [boxA, boxB] [gEqA, gEqB]).2 =
      .ok ⟨false, [boxB, boxA], some "left", 0, 20⟩ ∧
    guides.permuteBoxes [boxA, boxB] [0, 1] = [boxA, boxB] :=
  ⟨⟨by decide, by decide⟩, by rfl, by rfl⟩

/-- Helper: flatMap only depends on the function values on members. -/
theorem flatMap_congr_mem {α β : Type} (l : List α) (f g : α → List β)
    (h : ∀ a ∈ l, f a = g a) : l.flatMap f = l.flatMap g := by
  induction l with
  | nil => rfl
  | cons a as ih =>
    simp only [List.flatMap_cons]
    rw [h a (by simp), ih (fun x hx => h x (by simp [hx]))]

/-- Helper: a list is a permutation of the matching and the non-matching
parts of a filter, in that order. -/
theorem filter_append_not_filter_perm {α : Type} (p : α → Bool) (l : List α) :
    List.Perm (l.filter p ++ l.filter fun a => !(p a)) l := by
  induction l with
  | nil => simp
  | cons a as ih =>
    by_cases hpa : p a
    · simp only [List.filter_cons, hpa, Bool.not_true, if_true, if_false, List.cons_append]
      exact ih.cons a
    · simp only [List.filter_cons, hpa, Bool.not_false, if_true, if_false]
      exact List.perm_middle.trans (ih.cons a)

/-- Helper: filtering a list by each key of a duplicate-free list covering
every element partitions the list (up to permutation). -/
theorem flatMap_filter_hash_perm (hs : List Nat) (l : List Guide)
    (hnd : hs.Nodup) (hcov : ∀ g ∈ l, g.hash ∈ hs) :
    List.Perm (hs.flatMap fun h => l.filter fun g => g.hash == h) l := by
  induction hs generalizing l with
  | nil =>
    cases l with
    | nil => simp
    | cons g gs => exact absurd (hcov g (by simp)) (by simp)
  | cons h hs ih =>
    obtain ⟨hh, hnd2⟩ := List.nodup_cons.mp hnd
    have hfeq : ∀ k ∈ hs, (l.filter fun g => g.hash == k) =
        ((l.filter fun g => !(g.hash == h)).filter fun g => g.hash == k) := by
      intro k hk
      rw [List.filter_filter]
      apply List.filter_congr
      intro g hg
      have hkh : ¬ k = h := fun hc => hh (hc ▸ hk)
      by_cases hgk : g.hash = k
      · simp [hgk, hkh]
      · simp [hgk]
    have hcov2 : ∀ g ∈ (l.filter fun g => !(g.hash == h)), g.hash ∈ hs := by
      intro g hg
      rcases List.mem_filter.mp hg with ⟨hgl, hgh⟩
      simp only [Bool.not_eq_eq_eq_not, Bool.not_true, beq_eq_false_iff_ne] at hgh
      rcases List.mem_cons.mp (hcov g hgl) with heq | htl
      · exact absurd heq hgh
      · exact htl
    have hperm2 := ih (l.filter fun g => !(g.hash == h)) hnd2 hcov2
    have hstep : ((h :: hs).flatMap fun k => l.filter fun g => g.hash == k) =
        (l.filter fun g => g.hash == h) ++
          (hs.flatMap fun k => (l.filter fun g => !(g.hash == h)).filter
            fun g => g.hash == k) := by
      rw [List.flatMap_cons]
      rw [flatMap_congr_mem hs _ _ hfeq]
    rw [hstep]
    exact ((hperm2.append_left (l.filter fun g => g.hash == h)).trans
      (filter_append_not_filter_perm (fun g => g.hash == h) l))

/-- Helper: every hash key produced by `sortedHashes` has a non-empty filter
group. -/
theorem sortedHashes_mem_filter_ne_nil (gdefs : List Guide) (h : Nat)
    (hh : h ∈ guides.sortedHashes gdefs) :
    ∃ g gs, (gdefs.filter fun g => g.hash == h) = g :: gs := by
  have h1 : h ∈ (gdefs.map Guide.hash).dedup :=
    (List.perm_insertionSort _ _).mem_iff.mp hh
  have h2 : h ∈ gdefs.map Guide.hash := List.mem_dedup.mp h1
  rcases List.mem_map.mp h2 with ⟨g, hg, rfl⟩
  have hmem : g ∈ gdefs.filter fun x => x.hash == g.hash :=
    List.mem_filter.mpr ⟨hg, by simp⟩
  cases hx : gdefs.filter fun x => x.hash == g.hash with
  | nil =>
    rw [hx] at hmem
    cases hmem
  | cons a as => exact ⟨a, as, rfl⟩

/-- Helper: filterMap keeps the length when the function is total on the
list. -/
theorem length_filterMap_eq_of_isSome {α β : Type} (l : List α) (f : α → Option β)
    (h : ∀ a ∈ l, (f a).isSome) : (l.filterMap f).length = l.length := by
  induction l with
  | nil => rfl
  | cons a as ih =>
    have ha := h a (by simp)
    cases hfa : f a with
    | none =>
      rw [hfa] at ha
      cases ha
    | some b => simp [List.filterMap_cons, hfa, ih (fun x hx => h x (by simp [hx]))]

/-- C7: merge partitions its input by exact hash equality: the filter groups
(one per distinct hash key) jointly contain every input definition exactly
once (their concatenation is a permutation of the input); merge emits
exactly one definition per group (its output length is the number of
distinct hashes); and each group contributes the left-to-right fold of its
members under the pairwise merge operation. -/
theorem merge_partitions_by_hash (op : Guide → Guide → Guide) (gdefs : List Guide) :
    List.Perm
      ((guides.sortedHashes gdefs).flatMap fun h => gdefs.filter fun g => g.hash == h)
      gdefs ∧
    (guides.merge op gdefs).length = (gdefs.map Guide.hash).dedup.length ∧
    ∀ h ∈ guides.sortedHashes gdefs, ∃ g gs,
      (gdefs.filter fun g => g.hash == h) = g :: gs ∧
      gs.foldl op g ∈ guides.merge op gdefs := by
  have hnd : (guides.sortedHashes gdefs).Nodup :=
    (List.perm_insertionSort _ _).symm.nodup (List.nodup_dedup _)
  have hcov : ∀ g ∈ gdefs, g.hash ∈ guides.sortedHashes gdefs := by
    intro g hg
    exact (List.perm_insertionSort _ _).mem_iff.mpr
      (List.mem_dedup.mpr (List.mem_map_of_mem Guide.hash hg))
  refine ⟨flatMap_filter_hash_perm _ _ hnd hcov, ?_, ?_⟩
  · have hlen : (guides.merge op gdefs).length = (guides.sortedHashes gdefs).length := by
      unfold guides.merge
      apply length_filterMap_eq_of_isSome
      intro h hh
      rcases sortedHashes_mem_filter_ne_nil gdefs h hh with ⟨g, gs, hgs⟩
      simp [hgs]
    rw [hlen]
    exact (List.perm_insertionSort _ _).length_eq
  · intro h hh
    rcases sortedHashes_mem_filter_ne_nil gdefs h hh with ⟨g, gs, hgs⟩
    refine ⟨g, gs, hgs, ?_⟩
    apply List.mem_filterMap.mpr
    exact ⟨h, hh, by simp [hgs]⟩

/-- Witness for C7 at three concrete guides with hashes 1, 0, 1: the two
hash groups partition the input, merge emits two definitions, and the
hash-1 group contributes its fold. -/
theorem merge_partitions_by_hash_witness :
    List.Perm
      ((guides.sortedHashes [gM0, gM1, gM2]).flatMap fun h =>
        [gM0, gM1, gM2].filter fun g => g.hash == h)
      [gM0, gM1, gM2] ∧
    (guides.merge opW [gM0, gM1, gM2]).length = 2 ∧
    (∃ g gs, ([gM0, gM1, gM2].filter fun g => g.hash == 1) = g :: gs ∧
      gs.foldl opW g ∈ guides.merge opW [gM0, gM1, gM2]) :=
  ⟨(merge_partitions_by_hash opW [gM0, gM1, gM2]).1,
   (merge_partitions_by_hash opW [gM0, gM1, gM2]).2.1,
   (merge_partitions_by_hash opW [gM0, gM1, gM2]).2.2 1 (by decide)⟩
